import Mathlib

/-!
Verification of the retrieval-augmented QA orchestration layer
(`app.py`, `app2.py`) of the AI-chatbot repository.

The orchestration code is embedded shallowly: the external collaborators
(`VectorStore.search`, `VectorStore.search_by_product`, `GroqClient.generate_response`,
`process_pdf`) live in `utils/` modules that are not part of the visible
sources, so each query/upload operation is parameterised over their outcome
(an `Except String _` value models a Python call that either returns or
raises). The embedding additionally records, in its result structure, which
query string the search was invoked with, which question string the
generator was invoked with, and which chunk list `add_documents` was invoked
with — this instruments the call structure of the Python code without
changing its data flow.
-/

/-- A document/chunk record stored in `vector_store.documents`: a dict with
`content`, `source` and an optional `product` key (the `"product" in doc`
check in the Python code corresponds to `Option`). -/
structure Doc where
  content : String
  source : String
  product : Option String
deriving DecidableEq, Repr

/-- A value retrieved from the vector store as seen by `app.py`'s query loop:
either a dict (whose `content` / `source` keys may each be present or
absent), or a non-dict value (fails the `isinstance(doc, dict)` check). -/
inductive PyDoc where
  | dict : Option String → Option String → PyDoc
  | nonDict : PyDoc
deriving DecidableEq, Repr

/-- `f"\nFrom {doc['source']}:\n{doc['content']}\n\n"` from `app.py` line 84. -/
def docLine (src c : String) : String :=
  "\nFrom " ++ src ++ ":\n" ++ c ++ "\n\n"

/-- The context-assembly loop of `app.py` lines 77–85: starting from an empty
context string and empty sources list, each retrieved doc that is a dict with
both a `content` and a `source` key appends its attribution block to the
context and its source to the sources list; every other doc is skipped. -/
def assembleContext : List PyDoc → String × List String
  | [] => ("", [])
  | d :: ds =>
    let rest := assembleContext ds
    match d with
    | PyDoc.dict (some c) (some src) => (docLine src c ++ rest.1, src :: rest.2)
    | _ => rest

/-- The well-shapedness check of `app.py` line 83:
`isinstance(doc, dict) and "content" in doc and "source" in doc`. -/
def wellShaped : PyDoc → Bool
  | PyDoc.dict (some _) (some _) => true
  | _ => false

/-- The apology text `app.py` line 103 builds on an internal failure. -/
def appApology (e : String) : String :=
  "I'm sorry, I encountered an error while processing your query. Error: " ++ e

/-- Result of `app.py`'s `/query` handler: HTTP status, the JSON fields
(`response`, `sources`, `error`), and whether `groq_client.generate_response`
was invoked during the request. -/
structure AppResult where
  status : Nat
  response : Option String
  sources : Option (List String)
  error : Option String
  generatorCalled : Bool
deriving DecidableEq, Repr

/-- `app.py`'s `query` handler (lines 64–105). `searchOutcome` is the outcome
of `vector_store.search(query_text, k=3)` (a raised exception or the result
list); `generateFn` is `groq_client.generate_response`, taking the question
and the assembled context and either raising or returning the response
string. The `try` block catches any exception from either collaborator and
returns the apology fallback with status 500. -/
def app_query (query_text : String)
    (searchOutcome : Except String (List PyDoc))
    (generateFn : String → String → Except String String) : AppResult :=
  if query_text = "" then
    { status := 400, response := none, sources := none,
      error := some "Query is empty", generatorCalled := false }
  else
    match searchOutcome with
    | Except.error e =>
      { status := 500, response := some (appApology e), sources := some [],
        error := none, generatorCalled := false }
    | Except.ok docs =>
      let ctx := assembleContext docs
      match generateFn query_text ctx.1 with
      | Except.error e =>
        { status := 500, response := some (appApology e), sources := some [],
          error := none, generatorCalled := true }
      | Except.ok resp =>
        { status := 200, response := some resp, sources := some ctx.2,
          error := none, generatorCalled := true }

/-- The history update of `app2.py` lines 250–252: append the raw query,
then if the length exceeds 5 keep only the last 5 entries
(`session['history'][-5:]`). -/
def histUpdate (history0 : List String) (q : String) : List String :=
  let h := history0 ++ [q]
  if h.length > 5 then h.drop (h.length - 5) else h

/-- The query-enhancement step of `app2.py` lines 255–258, applied to the
session history after the append/truncate: if the history has more than one
entry, join all but the last with single spaces and append the marker and
the current question; otherwise the raw query is used unchanged. -/
def enhance (hist : List String) (q : String) : String :=
  if hist.length > 1 then
    String.intercalate " " hist.dropLast ++ "\n\nCurrent question: " ++ q
  else q

/-- The canned not-found response of `app2.py` line 272. -/
def notFoundMsg : String :=
  "I couldn't find any relevant information in the manuals. Please try rephrasing your question or check if manuals for this product have been uploaded."

/-- The fallback apology of `app2.py` line 291. -/
def app2Apology : String :=
  "I'm sorry, there was an error processing your request."

/-- Result of `app2.py`'s `/query` handler: HTTP status, the JSON fields,
the session history after the request, and instrumentation recording the
query string the vector store was searched with (`none` when no search
happened) and the question string the generator was invoked with (`none`
when the generator was not invoked). -/
structure App2Result (α : Type) where
  status : Nat
  response : Option String
  sources : Option (List String)
  error : Option String
  history : List String
  searchedWith : Option String
  genQuestion : Option String
deriving DecidableEq, Repr

/-- `app2.py`'s `query` handler (lines 233–293). The retrieved-chunk type is
abstract (`α`): the orchestration never inspects chunk fields, it only tests
emptiness and forwards the list to the generator. `searchFn` and
`searchByProductFn` are `vector_store.search` / `search_by_product` applied
to the enhanced query (and product label); `generateFn` is
`groq_client.generate_response` applied to the raw question, the retrieved
chunks and the optional product filter, returning the answer/sources pair or
raising. A `some ""` product filter is falsy in Python, so it selects the
unfiltered search. Any exception is caught by the handler's `try` and mapped
to the apology fallback (whose JSON carries an `error` field and no
`sources` field) with status 500. -/
def app2_query {α : Type} (query_text : String) (product_filter : Option String)
    (history0 : List String)
    (searchFn : String → Except String (List α))
    (searchByProductFn : String → String → Except String (List α))
    (generateFn : String → List α → Option String → Except String (String × List String)) :
    App2Result α :=
  if query_text = "" then
    { status := 400, response := none, sources := none,
      error := some "Query is empty", history := history0,
      searchedWith := none, genQuestion := none }
  else
    let hist := histUpdate history0 query_text
    let enhanced := enhance hist query_text
    let searched : Except String (List α) :=
      match product_filter with
      | some p => if p = "" then searchFn enhanced else searchByProductFn enhanced p
      | none => searchFn enhanced
    match searched with
    | Except.error e =>
      { status := 500, response := some app2Apology, sources := none,
        error := some e, history := hist,
        searchedWith := some enhanced, genQuestion := none }
    | Except.ok docs =>
      if docs.isEmpty then
        { status := 200, response := some notFoundMsg, sources := some [],
          error := none, history := hist,
          searchedWith := some enhanced, genQuestion := none }
      else
        match generateFn query_text docs product_filter with
        | Except.error e =>
          { status := 500, response := some app2Apology, sources := none,
            error := some e, history := hist,
            searchedWith := some enhanced, genQuestion := some query_text }
        | Except.ok ans =>
          { status := 200, response := some ans.1, sources := some ans.2,
            error := none, history := hist,
            searchedWith := some enhanced, genQuestion := some query_text }

/-- `ALLOWED_EXTENSIONS` from `config.py`. -/
def ALLOWED_EXTENSIONS : List String := ["pdf", "txt", "docx"]

/-- The character run after the last `'.'` of a name, `none` when the name
has no dot: this is Python's `name.rsplit('.', 1)[1]` guarded by
`'.' in name`. -/
def lastExt : List Char → Option (List Char)
  | [] => none
  | c :: rest =>
    match lastExt rest with
    | some ext => some ext
    | none => if c = '.' then some rest else none

/-- `allowed_file` from `app2.py` lines 168–169:
`'.' in filename and filename.rsplit('.', 1)[1].lower() in ALLOWED_EXTENSIONS`
(the part after the last dot, lowercased, must be an allowed extension). -/
def allowed_file (filename : String) : Bool :=
  match lastExt filename.data with
  | some ext => ALLOWED_EXTENSIONS.contains ⟨ext.map Char.toLower⟩
  | none => false

/-- Modelled from the spec: `VectorStore.add_documents` lives in
`utils/vector_store.py`, which is not among the visible sources. Per spec
§4.2 it embeds each chunk and appends it to the index, so on the documents
list it acts as an append. -/
def add_documents (index : List Doc) (chunks : List Doc) : List Doc :=
  index ++ chunks

/-- Result of `app2.py`'s `/upload` handler: HTTP status, the JSON fields,
the chunk list `vector_store.add_documents` was invoked with (`none` when it
was not invoked), and the vector store's documents after the request. -/
structure UploadResult where
  status : Nat
  success : Bool
  message : Option String
  error : Option String
  addCalledWith : Option (List Doc)
  index : List Doc
deriving DecidableEq, Repr

/-- `app2.py`'s `upload_file` handler (lines 197–230). `filePresent` models
`'file' in request.files`; `filename` is the (secured) file name;
`processOutcome` is the outcome of `process_pdf` (an `IngestionError` or the
chunk list); `index` is the vector store's documents before the request.
`add_documents` is invoked only after `process_pdf` returns successfully;
an exception from `process_pdf` is caught and surfaced as a 500 error. -/
def upload_file (filePresent : Bool) (filename : String)
    (processOutcome : Except String (List Doc)) (index : List Doc) :
    UploadResult :=
  if !filePresent then
    { status := 400, success := false, message := none,
      error := some "No file part", addCalledWith := none, index := index }
  else if filename = "" then
    { status := 400, success := false, message := none,
      error := some "No file selected", addCalledWith := none, index := index }
  else if allowed_file filename then
    match processOutcome with
    | Except.error e =>
      { status := 500, success := false, message := none,
        error := some e, addCalledWith := none, index := index }
    | Except.ok chunks =>
      { status := 200, success := true,
        message := some ("File " ++ filename ++ " processed with " ++
          toString chunks.length ++ " chunks"),
        error := none, addCalledWith := some chunks,
        index := add_documents index chunks }
  else
    { status := 400, success := false, message := none,
      error := some "File type not allowed", addCalledWith := none, index := index }

/-- Adding an element to a Python `set`, modelled on a duplicate-free list:
a no-op when the element is already present. -/
def pySetInsert (s : List String) (x : String) : List String :=
  if x ∈ s then s else s ++ [x]

/-- One iteration of the `/products` loop of `app2.py` lines 331–333:
`if "product" in doc and doc["product"]: products.add(doc["product"])` —
a missing key or an empty (falsy) label contributes nothing. -/
def productStep (s : List String) (d : Doc) : List String :=
  match d.product with
  | some p => if p = "" then s else pySetInsert s p
  | none => s

/-- The set comprehension of `app2.py` lines 330–333: collect `doc["product"]`
over all stored documents that have a truthy (present and non-empty)
`product` value, into a set. -/
def productSet (docs : List Doc) : List String :=
  docs.foldl productStep []

/-- `app2.py`'s `/products` handler (lines 328–335): it reads
`vector_store.documents`, builds the product set, and returns it; the
documents list is returned unchanged alongside to record that the handler
performs no store mutation. -/
def list_products (docs : List Doc) : List String × List Doc :=
  (productSet docs, docs)

/-- The source projection implicit in `app.py` lines 83–85: the `source` value
of a retrieved doc that passes the well-shapedness check, `none` otherwise. -/
def pyDocSource : PyDoc → Option String
  | PyDoc.dict (some _) (some s) => some s
  | _ => none

/-- A concrete retrieved-result list whose sources arrive in the order
`a, b, a, c` (the worked example of the context-assembly contract). -/
def exDocs : List PyDoc :=
  [PyDoc.dict (some "c1") (some "a"), PyDoc.dict (some "c2") (some "b"),
   PyDoc.dict (some "c3") (some "a"), PyDoc.dict (some "c4") (some "c")]

/-- A concrete search collaborator that returns no results. -/
def okEmptySearch : String → Except String (List Unit) := fun _ => Except.ok []

/-- A concrete product-filtered search collaborator that returns no results. -/
def okEmptySearchBy : String → String → Except String (List Unit) := fun _ _ => Except.ok []

/-- A concrete generator collaborator for `app2.py` that always answers. -/
def okGen : String → List Unit → Option String → Except String (String × List String) :=
  fun _ _ _ => Except.ok ("generated answer", [])

/-- A concrete generator collaborator for `app.py` that always answers. -/
def constGen : String → String → Except String String := fun _ _ => Except.ok "model answer"

/-- Structure of every non-validation run of `app2.py`'s `query`: the session
history is the appended-and-truncated one, the vector store is searched with
the enhanced query, and the generator, when invoked at all, is invoked with
the raw query as its question. -/
theorem app2_query_run {α : Type} (q : String) (pf : Option String)
    (h0 : List String) (sf : String → Except String (List α))
    (sbf : String → String → Except String (List α))
    (gf : String → List α → Option String → Except String (String × List String))
    (hq : q ≠ "") :
    (app2_query q pf h0 sf sbf gf).history = histUpdate h0 q ∧
    (app2_query q pf h0 sf sbf gf).searchedWith = some (enhance (histUpdate h0 q) q) ∧
    ((app2_query q pf h0 sf sbf gf).genQuestion = none ∨
      (app2_query q pf h0 sf sbf gf).genQuestion = some q) := by
  unfold app2_query
  rw [if_neg hq]
  rcases pf with _ | p
  · cases hs : sf (enhance (histUpdate h0 q) q) with
    | error e => simp [hs]
    | ok docs =>
      by_cases hd : docs.isEmpty
      · simp [hs, hd]
      · cases hg : gf q docs none with
        | error e => simp [hs, hd, hg]
        | ok ans => simp [hs, hd, hg]
  · by_cases hp : p = ""
    · subst hp
      simp only [if_pos rfl]
      cases hs : sf (enhance (histUpdate h0 q) q) with
      | error e => simp [hs]
      | ok docs =>
        by_cases hd : docs.isEmpty
        · simp [hs, hd]
        · cases hg : gf q docs (some "") with
          | error e => simp [hs, hd, hg]
          | ok ans => simp [hs, hd, hg]
    · simp only [if_neg hp]
      cases hs : sbf (enhance (histUpdate h0 q) q) p with
      | error e => simp [hs]
      | ok docs =>
        by_cases hd : docs.isEmpty
        · simp [hs, hd]
        · cases hg : gf q docs (some p) with
          | error e => simp [hs, hd, hg]
          | ok ans => simp [hs, hd, hg]

/-- The updated history is a suffix of the old history with the new query
appended. -/
theorem histUpdate_suffix (h0 : List String) (q : String) :
    (histUpdate h0 q).IsSuffix (h0 ++ [q]) := by
  unfold histUpdate
  dsimp only
  split
  · exact List.drop_suffix _ _
  · exact List.suffix_refl _

/-- The updated history's length: one more than before, capped at 5. -/
theorem histUpdate_length (h0 : List String) (q : String) :
    (histUpdate h0 q).length = min (h0.length + 1) 5 := by
  unfold histUpdate
  dsimp only
  split <;> rename_i h
  · simp_all
    omega
  · simp_all

/-- The updated history ends with the new query. -/
theorem histUpdate_concat (h0 : List String) (q : String) :
    ∃ pre, histUpdate h0 q = pre ++ [q] := by
  unfold histUpdate
  dsimp only
  split
  · rename_i h
    refine ⟨h0.drop ((h0 ++ [q]).length - 5), ?_⟩
    rw [List.drop_append_of_le_length (by simp)]
  · exact ⟨h0, rfl⟩

/-- Appending to a non-empty history leaves more than one entry even after
truncation. -/
theorem histUpdate_length_gt_one (h0 : List String) (q : String) (h : h0 ≠ []) :
    1 < (histUpdate h0 q).length := by
  have h1 : 0 < h0.length := List.length_pos.mpr h
  rw [histUpdate_length]
  omega

/-- Appending to an empty history yields the singleton history. -/
theorem histUpdate_nil (q : String) : histUpdate [] q = [q] := by
  simp [histUpdate]

/-- On a singleton history the enhancement step leaves the query unchanged. -/
theorem enhance_single (q : String) : enhance [q] q = q := by
  simp [enhance]

/-- The context-assembly loop ignores every doc that fails the
well-shapedness check: filtering them out first changes nothing. -/
theorem assembleContext_filter (docs : List PyDoc) :
    assembleContext docs = assembleContext (docs.filter wellShaped) := by
  induction docs with
  | nil => rfl
  | cons d ds ih =>
    cases d with
    | dict co so =>
      cases co <;> cases so <;> simp [assembleContext, wellShaped, List.filter, ih]
    | nonDict => simp [assembleContext, wellShaped, List.filter, ih]

/-- Membership in a Python-set insertion. -/
theorem pySetInsert_mem (s : List String) (x y : String) :
    y ∈ pySetInsert s x ↔ y ∈ s ∨ y = x := by
  unfold pySetInsert
  split <;> rename_i h
  · constructor
    · exact Or.inl
    · rintro (hy | rfl)
      · exact hy
      · exact h
  · simp

/-- Python-set insertion preserves freedom from duplicates. -/
theorem pySetInsert_nodup (s : List String) (x : String) (h : s.Nodup) :
    (pySetInsert s x).Nodup := by
  unfold pySetInsert
  split <;> rename_i hx
  · exact h
  · simp [List.nodup_append, h, hx]

/-- Membership after one iteration of the `/products` loop. -/
theorem productStep_mem (s : List String) (d : Doc) (p : String) :
    p ∈ productStep s d ↔ p ∈ s ∨ (d.product = some p ∧ p ≠ "") := by
  unfold productStep
  rcases d with ⟨c, src, _ | x⟩
  · simp
  · dsimp only
    by_cases hx : x = ""
    · subst hx
      simp only [if_pos rfl]
      constructor
      · exact Or.inl
      · rintro (hp | ⟨hpe, hne⟩)
        · exact hp
        · exact absurd (Option.some.inj hpe).symm hne
    · rw [if_neg hx, pySetInsert_mem]
      constructor
      · rintro (hp | rfl)
        · exact Or.inl hp
        · exact Or.inr ⟨rfl, hx⟩
      · rintro (hp | ⟨hpe, hne⟩)
        · exact Or.inl hp
        · exact Or.inr (Option.some.inj hpe).symm

/-- One iteration of the `/products` loop preserves freedom from duplicates. -/
theorem productStep_nodup (s : List String) (d : Doc) (h : s.Nodup) :
    (productStep s d).Nodup := by
  unfold productStep
  rcases d with ⟨c, src, _ | x⟩
  · exact h
  · dsimp only
    by_cases hx : x = ""
    · rw [if_pos hx]; exact h
    · rw [if_neg hx]; exact pySetInsert_nodup _ _ h

/-- The full `/products` loop preserves freedom from duplicates. -/
theorem foldl_productStep_nodup (docs : List Doc) (s : List String) (h : s.Nodup) :
    (List.foldl productStep s docs).Nodup := by
  induction docs generalizing s with
  | nil => exact h
  | cons d ds ih => exact ih _ (productStep_nodup s d h)

/-- Membership after the full `/products` loop: the accumulated labels plus
every present, non-empty product label of the documents. -/
theorem foldl_productStep_mem (docs : List Doc) (s : List String) (p : String) :
    p ∈ List.foldl productStep s docs ↔
      p ∈ s ∨ ∃ d ∈ docs, d.product = some p ∧ p ≠ "" := by
  induction docs generalizing s with
  | nil => simp
  | cons d ds ih =>
    rw [List.foldl_cons, ih, productStep_mem]
    constructor
    · rintro ((hp | hd) | ⟨d', hd', hp'⟩)
      · exact Or.inl hp
      · exact Or.inr ⟨d, List.mem_cons_self d ds, hd⟩
      · exact Or.inr ⟨d', List.mem_cons_of_mem d hd', hp'⟩
    · rintro (hp | ⟨d', hd', hp'⟩)
      · exact Or.inl (Or.inl hp)
      · rcases List.mem_cons.mp hd' with rfl | hd'
        · exact Or.inl (Or.inr hp')
        · exact Or.inr ⟨d', hd', hp'⟩

/-- Claim C1, counterexample: with retrieved result sources arriving in the
order `a, b, a, c`, the sources list assembled by `app.py`'s query loop is
`[a, b, a, c]`, not the deduplicated `[a, b, c]` the claim requires. -/
theorem c1_counterexample :
    (assembleContext exDocs).2 = ["a", "b", "a", "c"] ∧
    (assembleContext exDocs).2 ≠ ["a", "b", "c"] := by
  have h : (assembleContext exDocs).2 = ["a", "b", "a", "c"] := rfl
  refine ⟨h, ?_⟩
  rw [h]
  decide

/-- Claim C1, amended: for every sequence of search results, the sources
list assembled by `app.py`'s query loop contains each well-shaped result's
source identifier in the order received, with duplicates retained (no
deduplication is performed). -/
theorem c1_sources_no_dedup (docs : List PyDoc) :
    (assembleContext docs).2 = docs.filterMap pyDocSource := by
  induction docs with
  | nil => rfl
  | cons d ds ih =>
    cases d with
    | dict co so =>
      cases co <;> cases so <;>
        simp [assembleContext, pyDocSource, List.filterMap_cons, ih]
    | nonDict => simp [assembleContext, pyDocSource, List.filterMap_cons, ih]

/-- Claim C2, counterexample: on an empty search result, `app.py`'s query
operation does invoke the Answer Generator (with the empty context) and
returns the generator's answer rather than a canned not-found response. -/
theorem c2_counterexample :
    (app_query "any question" (Except.ok []) constGen).generatorCalled = true ∧
    (app_query "any question" (Except.ok []) constGen).response = some "model answer" :=
  ⟨rfl, rfl⟩

/-- Claim C2, amended: for every non-empty query whose search returns an
empty result sequence, `app2.py`'s query operation returns the canned
not-found response with an empty sources list and does not invoke the Answer
Generator; `app.py`'s query operation, by contrast, invokes the generator
even then. -/
theorem c2_empty_results_behaviour {α : Type} (q : String) (pf : Option String)
    (h0 : List String)
    (gf : String → List α → Option String → Except String (String × List String))
    (gf2 : String → String → Except String String)
    (hq : q ≠ "") :
    (app2_query q pf h0 (fun _ => Except.ok ([] : List α)) (fun _ _ => Except.ok [])
      gf).response = some notFoundMsg ∧
    (app2_query q pf h0 (fun _ => Except.ok ([] : List α)) (fun _ _ => Except.ok [])
      gf).sources = some [] ∧
    (app2_query q pf h0 (fun _ => Except.ok ([] : List α)) (fun _ _ => Except.ok [])
      gf).genQuestion = none ∧
    (app2_query q pf h0 (fun _ => Except.ok ([] : List α)) (fun _ _ => Except.ok [])
      gf).status = 200 ∧
    (app_query q (Except.ok []) gf2).generatorCalled = true := by
  have happ : (app_query q (Except.ok []) gf2).generatorCalled = true := by
    unfold app_query
    rw [if_neg hq]
    dsimp only
    cases hg : gf2 q (assembleContext []).1 <;> simp [hg]
  refine ⟨?_, ?_, ?_, ?_, happ⟩ <;>
    · unfold app2_query
      rw [if_neg hq]
      rcases pf with _ | p
      · simp
      · by_cases hp : p = "" <;> simp [hp]

/-- Claim C2, witness: the amended behaviour at the concrete query
`"anything"` on a fresh session and empty index. -/
theorem c2_empty_results_behaviour_witness :
    (app2_query "anything" none [] (fun _ => Except.ok ([] : List Unit))
      (fun _ _ => Except.ok []) okGen).response = some notFoundMsg ∧
    (app2_query "anything" none [] (fun _ => Except.ok ([] : List Unit))
      (fun _ _ => Except.ok []) okGen).sources = some [] ∧
    (app2_query "anything" none [] (fun _ => Except.ok ([] : List Unit))
      (fun _ _ => Except.ok []) okGen).genQuestion = none ∧
    (app2_query "anything" none [] (fun _ => Except.ok ([] : List Unit))
      (fun _ _ => Except.ok []) okGen).status = 200 ∧
    (app_query "anything" (Except.ok []) constGen).generatorCalled = true :=
  c2_empty_results_behaviour "anything" none [] okGen constGen (by decide)

/-- Claim C3, counterexample: with a session history of one entry
(`["what is X"]`, fewer than 2 entries) the enhanced query used for
retrieval is the context-prefixed string, not the raw query. -/
theorem c3_counterexample :
    (app2_query "and then?" none ["what is X"] okEmptySearch okEmptySearchBy
      okGen).searchedWith = some "what is X\n\nCurrent question: and then?" ∧
    some "what is X\n\nCurrent question: and then?" ≠ (some "and then?" : Option String) :=
  ⟨rfl, by decide⟩

/-- Claim C3, amended: for every non-empty query whose session history,
taken before the new raw query is appended, is empty, the enhanced query
used for retrieval equals the raw query string exactly (with even a single
prior entry, enhancement applies instead). -/
theorem c3_raw_query_on_empty_history {α : Type} (q : String) (pf : Option String)
    (sf : String → Except String (List α))
    (sbf : String → String → Except String (List α))
    (gf : String → List α → Option String → Except String (String × List String))
    (hq : q ≠ "") :
    (app2_query q pf [] sf sbf gf).searchedWith = some q := by
  have h := (app2_query_run q pf [] sf sbf gf hq).2.1
  rw [h, histUpdate_nil, enhance_single]

/-- Claim C3, witness: the amended behaviour at the concrete first-turn query
`"how to reset"`. -/
theorem c3_raw_query_on_empty_history_witness :
    (app2_query "how to reset" none [] okEmptySearch okEmptySearchBy okGen).searchedWith
      = some "how to reset" :=
  c3_raw_query_on_empty_history "how to reset" none okEmptySearch okEmptySearchBy okGen
    (by decide)

/-- Claim C4: where enhancement applies (non-empty prior history), the query
string used for the index search is the session history minus its current
(last) entry, joined oldest-first, followed by the delimiting marker
`"\n\nCurrent question: "`, followed by the literal raw query; and the
question handed to the Answer Generator, whenever it is invoked, is the raw
query, not the enhanced string. -/
theorem c4_enhanced_query_structure {α : Type} (q : String) (pf : Option String)
    (h0 : List String)
    (sf : String → Except String (List α))
    (sbf : String → String → Except String (List α))
    (gf : String → List α → Option String → Except String (String × List String))
    (hq : q ≠ "") (hh : h0 ≠ []) :
    (app2_query q pf h0 sf sbf gf).searchedWith =
      some (String.intercalate " " (app2_query q pf h0 sf sbf gf).history.dropLast ++
        "\n\nCurrent question: " ++ q) ∧
    ((app2_query q pf h0 sf sbf gf).genQuestion = none ∨
      (app2_query q pf h0 sf sbf gf).genQuestion = some q) := by
  obtain ⟨hhist, hsw, hgen⟩ := app2_query_run q pf h0 sf sbf gf hq
  refine ⟨?_, hgen⟩
  rw [hsw, hhist]
  unfold enhance
  rw [if_pos (histUpdate_length_gt_one h0 q hh)]

/-- Claim C4, witness: the enhancement structure at history
`["what is X", "how to reset"]` and new raw query `"and then?"`. -/
theorem c4_enhanced_query_structure_witness :
    (app2_query "and then?" none ["what is X", "how to reset"]
        okEmptySearch okEmptySearchBy okGen).searchedWith =
      some (String.intercalate " " (app2_query "and then?" none ["what is X", "how to reset"]
        okEmptySearch okEmptySearchBy okGen).history.dropLast ++
        "\n\nCurrent question: " ++ "and then?") ∧
    ((app2_query "and then?" none ["what is X", "how to reset"]
        okEmptySearch okEmptySearchBy okGen).genQuestion = none ∨
      (app2_query "and then?" none ["what is X", "how to reset"]
        okEmptySearch okEmptySearchBy okGen).genQuestion = some "and then?") :=
  c4_enhanced_query_structure "and then?" none ["what is X", "how to reset"]
    okEmptySearch okEmptySearchBy okGen (by decide) (by decide)

/-- Claim C5: every non-empty query appends the raw query to the session
history and truncates to the last 5 entries, whatever the downstream search
and generation collaborators do (including raising): the resulting history
is a suffix of the old history with the query appended, its length is the
old length plus one capped at 5, and its most recent (last) entry is the new
raw query. -/
theorem c5_history_sliding_window {α : Type} (q : String) (pf : Option String)
    (h0 : List String)
    (sf : String → Except String (List α))
    (sbf : String → String → Except String (List α))
    (gf : String → List α → Option String → Except String (String × List String))
    (hq : q ≠ "") :
    (app2_query q pf h0 sf sbf gf).history.IsSuffix (h0 ++ [q]) ∧
    (app2_query q pf h0 sf sbf gf).history.length = min (h0.length + 1) 5 ∧
    ∃ pre, (app2_query q pf h0 sf sbf gf).history = pre ++ [q] := by
  obtain ⟨hhist, -, -⟩ := app2_query_run q pf h0 sf sbf gf hq
  rw [hhist]
  exact ⟨histUpdate_suffix h0 q, histUpdate_length h0 q, histUpdate_concat h0 q⟩

/-- Claim C5, witness: the sliding window at a full 5-entry history and the
sixth query `"q6"`. -/
theorem c5_history_sliding_window_witness :
    (app2_query "q6" none ["q1", "q2", "q3", "q4", "q5"]
        okEmptySearch okEmptySearchBy okGen).history.IsSuffix
      (["q1", "q2", "q3", "q4", "q5"] ++ ["q6"]) ∧
    (app2_query "q6" none ["q1", "q2", "q3", "q4", "q5"]
        okEmptySearch okEmptySearchBy okGen).history.length =
      min (["q1", "q2", "q3", "q4", "q5"].length + 1) 5 ∧
    ∃ pre, (app2_query "q6" none ["q1", "q2", "q3", "q4", "q5"]
        okEmptySearch okEmptySearchBy okGen).history = pre ++ ["q6"] :=
  c5_history_sliding_window "q6" none ["q1", "q2", "q3", "q4", "q5"]
    okEmptySearch okEmptySearchBy okGen (by decide)

/-- Claim C6, counterexample: on an internal failure (search raising),
`app2.py`'s fallback response carries no sources list at all (`sources` is
absent from its JSON), so it is not "an apology text and an empty sources
list" as claimed. -/
theorem c6_counterexample :
    (app2_query "hi" none [] (fun _ => (Except.error "boom" : Except String (List Unit)))
      (fun _ _ => Except.error "boom") okGen).sources = none ∧
    (app2_query "hi" none [] (fun _ => (Except.error "boom" : Except String (List Unit)))
      (fun _ _ => Except.error "boom") okGen).sources ≠ some [] := by
  have h : (app2_query "hi" none []
      (fun _ => (Except.error "boom" : Except String (List Unit)))
      (fun _ _ => Except.error "boom") okGen).sources = none := rfl
  refine ⟨h, ?_⟩
  rw [h]
  simp

/-- Claim C6, amended: on every internal failure of the query operation
(search or generation raising), the exception is not propagated and a
fallback with a non-success status (500) and an apology text is returned;
`app.py`'s fallback carries an empty sources list, while `app2.py`'s
fallback carries the error detail in an `error` field and no sources list. -/
theorem c6_failure_fallback {α : Type} (q e : String) (pf : Option String)
    (h0 : List String) (docs : List PyDoc) (docs2 : List α)
    (gf : String → String → Except String String)
    (gf2 : String → List α → Option String → Except String (String × List String))
    (hq : q ≠ "") (hd : docs2 ≠ []) :
    (app_query q (Except.error e) gf).status = 500 ∧
    (app_query q (Except.error e) gf).response = some (appApology e) ∧
    (app_query q (Except.error e) gf).sources = some [] ∧
    (app_query q (Except.ok docs) (fun _ _ => Except.error e)).status = 500 ∧
    (app_query q (Except.ok docs) (fun _ _ => Except.error e)).response
      = some (appApology e) ∧
    (app_query q (Except.ok docs) (fun _ _ => Except.error e)).sources = some [] ∧
    (app2_query q pf h0 (fun _ => Except.error e) (fun _ _ => Except.error e)
      gf2).status = 500 ∧
    (app2_query q pf h0 (fun _ => Except.error e) (fun _ _ => Except.error e)
      gf2).response = some app2Apology ∧
    (app2_query q pf h0 (fun _ => Except.error e) (fun _ _ => Except.error e)
      gf2).error = some e ∧
    (app2_query q pf h0 (fun _ => Except.error e) (fun _ _ => Except.error e)
      gf2).sources = none ∧
    (app2_query q pf h0 (fun _ => Except.ok docs2) (fun _ _ => Except.ok docs2)
      (fun _ _ _ => Except.error e)).status = 500 ∧
    (app2_query q pf h0 (fun _ => Except.ok docs2) (fun _ _ => Except.ok docs2)
      (fun _ _ _ => Except.error e)).response = some app2Apology ∧
    (app2_query q pf h0 (fun _ => Except.ok docs2) (fun _ _ => Except.ok docs2)
      (fun _ _ _ => Except.error e)).error = some e ∧
    (app2_query q pf h0 (fun _ => Except.ok docs2) (fun _ _ => Except.ok docs2)
      (fun _ _ _ => Except.error e)).sources = none := by
  have hde : docs2.isEmpty = false := by simp [List.isEmpty_iff, hd]
  refine ⟨?_, ?_, ?_, ?_, ?_, ?_, ?_, ?_, ?_, ?_, ?_, ?_, ?_, ?_⟩ <;>
    first
    | (unfold app_query
       rw [if_neg hq])
    | (unfold app2_query
       rw [if_neg hq]
       rcases pf with _ | p
       · simp [hde]
       · by_cases hp : p = "" <;> simp [hp, hde])

/-- Claim C6, witness: the amended fallback behaviour at the concrete query
`"hi"` and exception text `"boom"`. -/
theorem c6_failure_fallback_witness :
    (app_query "hi" (Except.error "boom") constGen).status = 500 ∧
    (app_query "hi" (Except.error "boom") constGen).response
      = some (appApology "boom") ∧
    (app_query "hi" (Except.error "boom") constGen).sources = some [] ∧
    (app_query "hi" (Except.ok []) (fun _ _ => Except.error "boom")).status = 500 ∧
    (app_query "hi" (Except.ok []) (fun _ _ => Except.error "boom")).response
      = some (appApology "boom") ∧
    (app_query "hi" (Except.ok []) (fun _ _ => Except.error "boom")).sources
      = some [] ∧
    (app2_query "hi" none [] (fun _ => Except.error "boom")
      (fun _ _ => Except.error "boom") okGen).status = 500 ∧
    (app2_query "hi" none [] (fun _ => Except.error "boom")
      (fun _ _ => Except.error "boom") okGen).response = some app2Apology ∧
    (app2_query "hi" none [] (fun _ => Except.error "boom")
      (fun _ _ => Except.error "boom") okGen).error = some "boom" ∧
    (app2_query "hi" none [] (fun _ => Except.error "boom")
      (fun _ _ => Except.error "boom") okGen).sources = none ∧
    (app2_query "hi" none [] (fun _ => Except.ok [()]) (fun _ _ => Except.ok [()])
      (fun _ _ _ => Except.error "boom")).status = 500 ∧
    (app2_query "hi" none [] (fun _ => Except.ok [()]) (fun _ _ => Except.ok [()])
      (fun _ _ _ => Except.error "boom")).response = some app2Apology ∧
    (app2_query "hi" none [] (fun _ => Except.ok [()]) (fun _ _ => Except.ok [()])
      (fun _ _ _ => Except.error "boom")).error = some "boom" ∧
    (app2_query "hi" none [] (fun _ => Except.ok [()]) (fun _ _ => Except.ok [()])
      (fun _ _ _ => Except.error "boom")).sources = none :=
  c6_failure_fallback "hi" "boom" none [] [] [()] constGen okGen (by decide) (by decide)

/-- Claim C7: when chunking (`process_pdf`) fails for an uploaded document,
the upload operation surfaces the error with status 500, never invokes
`add_documents`, and leaves the vector index unchanged (all-or-nothing per
document). -/
theorem c7_failed_ingestion_no_mutation (filename e : String) (index : List Doc)
    (hf : filename ≠ "") (ha : allowed_file filename = true) :
    (upload_file true filename (Except.error e) index).error = some e ∧
    (upload_file true filename (Except.error e) index).status = 500 ∧
    (upload_file true filename (Except.error e) index).addCalledWith = none ∧
    (upload_file true filename (Except.error e) index).index = index := by
  unfold upload_file
  simp [hf, ha]

/-- Claim C7, witness: the failed ingestion of `manual.pdf` over a one-chunk
index. -/
theorem c7_failed_ingestion_no_mutation_witness :
    (upload_file true "manual.pdf" (Except.error "IngestionError: empty document")
      [⟨"chunk", "old.pdf", some "OldProduct"⟩]).error
      = some "IngestionError: empty document" ∧
    (upload_file true "manual.pdf" (Except.error "IngestionError: empty document")
      [⟨"chunk", "old.pdf", some "OldProduct"⟩]).status = 500 ∧
    (upload_file true "manual.pdf" (Except.error "IngestionError: empty document")
      [⟨"chunk", "old.pdf", some "OldProduct"⟩]).addCalledWith = none ∧
    (upload_file true "manual.pdf" (Except.error "IngestionError: empty document")
      [⟨"chunk", "old.pdf", some "OldProduct"⟩]).index
      = [⟨"chunk", "old.pdf", some "OldProduct"⟩] :=
  c7_failed_ingestion_no_mutation "manual.pdf" "IngestionError: empty document"
    [⟨"chunk", "old.pdf", some "OldProduct"⟩] (by decide) (by decide)

/-- Claim C8: a query request with empty query text fails with the
validation error "Query is empty" and status 400 in both `app.py` and
`app2.py`; the session history is left unchanged, no search is performed and
the generator is not invoked. -/
theorem c8_empty_query_validation {α : Type} (pf : Option String) (h0 : List String)
    (sf : String → Except String (List α))
    (sbf : String → String → Except String (List α))
    (gf : String → List α → Option String → Except String (String × List String))
    (so : Except String (List PyDoc)) (gf2 : String → String → Except String String) :
    (app2_query "" pf h0 sf sbf gf).status = 400 ∧
    (app2_query "" pf h0 sf sbf gf).error = some "Query is empty" ∧
    (app2_query "" pf h0 sf sbf gf).response = none ∧
    (app2_query "" pf h0 sf sbf gf).history = h0 ∧
    (app2_query "" pf h0 sf sbf gf).searchedWith = none ∧
    (app2_query "" pf h0 sf sbf gf).genQuestion = none ∧
    (app_query "" so gf2).status = 400 ∧
    (app_query "" so gf2).error = some "Query is empty" ∧
    (app_query "" so gf2).generatorCalled = false := by
  unfold app2_query app_query
  simp

/-- Claim C9: the product-listing operation returns exactly the distinct
present, non-empty product labels of the documents in the vector index —
each exactly once, no empty or absent labels — and leaves the documents
unchanged (read-only projection). -/
theorem c9_product_listing (docs : List Doc) :
    (list_products docs).2 = docs ∧
    (list_products docs).1.Nodup ∧
    ∀ p, p ∈ (list_products docs).1 ↔ ∃ d ∈ docs, d.product = some p ∧ p ≠ "" := by
  refine ⟨rfl, foldl_productStep_nodup docs [] List.nodup_nil, fun p => ?_⟩
  show p ∈ productSet docs ↔ _
  unfold productSet
  rw [foldl_productStep_mem]
  simp

/-- Claim C10: in `app.py`'s query operation, every retrieved result that is
not a dict with both a `content` and a `source` key is silently excluded
from the assembled context and the sources list — the whole operation
behaves identically on the raw result list and on its well-shaped
sublist, and returns normally on either. -/
theorem c10_malformed_docs_skipped (q : String) (docs : List PyDoc)
    (gfn : String → String → Except String String) :
    app_query q (Except.ok docs) gfn =
      app_query q (Except.ok (docs.filter wellShaped)) gfn ∧
    assembleContext docs = assembleContext (docs.filter wellShaped) := by
  refine ⟨?_, assembleContext_filter docs⟩
  unfold app_query
  dsimp only
  rw [assembleContext_filter docs]
